import Mathlib

/-!
Verification of the sail-selection toggle logic of the sail-plan tracker
(`src/main.py`): the pure decision core of `toggle_sail`, `toggle_staysail`,
the pending/committed change detection, and `format_config_summary`.

Machine model: the pending configuration carried in the round-trip form
fields `pending_main`, `pending_headsail`, `pending_downwind`,
`pending_staysail` is a four-field record of strings and a boolean.
Committed records additionally carry a comment and a timestamp.
-/

namespace SailPlan

/-- The pending sail configuration: exactly the four fields carried in the
toggle round trip (the dict built at `main.py:395-400`). -/
structure SailConfig where
  main : String
  headsail : String
  downwind : String
  staysail_mode : Bool
deriving DecidableEq, Repr

/-- A committed record as returned by `get_current_sail_config` /
`get_recent_entries`: the four compared fields plus a free-text comment and
(for history entries) a timestamp, which the change detection ignores. -/
structure SailRecord where
  main : String
  headsail : String
  downwind : String
  staysail_mode : Bool
  comment : String
  time : Option Int
deriving DecidableEq, Repr

/-- The four compared fields of a committed record. -/
def SailRecord.config (r : SailRecord) : SailConfig :=
  { main := r.main, headsail := r.headsail, downwind := r.downwind,
    staysail_mode := r.staysail_mode }

/-- The pure toggle decision of the `POST /sail/{category}/{value}` handler
(`main.py:348-400`): given the current pending configuration, a category and
a value, compute the new pending configuration. -/
def toggle_sail (pending : SailConfig) (category value : String) : SailConfig :=
  if category = "main" then
    { main := if value ≠ pending.main then value else "DOWN",
      headsail := pending.headsail,
      downwind := pending.downwind,
      staysail_mode := pending.staysail_mode }
  else if category = "headsail" then
    let new_headsail := if value = pending.headsail then "" else value
    -- staysail is reset on any headsail change, except in the JIB branch below
    if new_headsail = "" then
      { main := pending.main, headsail := new_headsail,
        downwind := pending.downwind, staysail_mode := false }
    else if new_headsail = "JIB" ∧ pending.downwind = "REACHING_SPI" then
      { main := pending.main, headsail := new_headsail,
        downwind := pending.downwind, staysail_mode := pending.staysail_mode }
    else
      { main := pending.main, headsail := new_headsail,
        downwind := "", staysail_mode := false }
  else if category = "downwind" then
    let new_downwind := if value = pending.downwind then "" else value
    if new_downwind = "" then
      { main := pending.main, headsail := pending.headsail,
        downwind := new_downwind, staysail_mode := false }
    else if new_downwind = "REACHING_SPI" ∧ pending.headsail = "JIB" then
      { main := pending.main, headsail := pending.headsail,
        downwind := new_downwind, staysail_mode := pending.staysail_mode }
    else
      { main := pending.main, headsail := "",
        downwind := new_downwind, staysail_mode := false }
  else
    pending

/-- The pure decision of the `POST /staysail/toggle` handler
(`main.py:419-429`): flip `staysail_mode` unconditionally, keep the rest. -/
def toggle_staysail (pending : SailConfig) : SailConfig :=
  { main := pending.main, headsail := pending.headsail,
    downwind := pending.downwind, staysail_mode := !pending.staysail_mode }

/-- The inline pending/committed comparison of both toggle handlers
(`main.py:402-408` and `main.py:431-437`): true iff any of the four fields
`main`, `headsail`, `downwind`, `staysail_mode` differ. -/
def has_changes (pending committed : SailRecord) : Bool :=
  pending.main ≠ committed.main ∨
  pending.headsail ≠ committed.headsail ∨
  pending.downwind ≠ committed.downwind ∨
  pending.staysail_mode ≠ committed.staysail_mode

/-- `format_config_summary` (`main.py:259-288`), with the config-file display
table `SAIL_DISPLAY` passed in as a lookup function (`d k = none` models a
key absent from the table; `.get(k, k)` becomes `(d k).getD k`). -/
def format_config_summary (d : String → Option String) (config : SailConfig) :
    String :=
  -- main = config.get("main") or "DOWN"
  let main := if config.main = "" then "DOWN" else config.main
  let mainPart := if main = "DOWN" ∨ main = "None" then "Main: DOWN"
    else "Main: " ++ main
  let main := if main = "DOWN" ∨ main = "None" then "DOWN" else main
  -- headsail = config.get("headsail") or ""
  let headsail := config.headsail
  let headParts : List String :=
    if headsail ≠ "" ∧ headsail ≠ "None" then
      let name := (d headsail).getD headsail
      [if config.staysail_mode then name ++ " (S)" else name]
    else []
  let headsail := if headsail ≠ "" ∧ headsail ≠ "None" then headsail else ""
  let downwind := config.downwind
  let downParts : List String :=
    if downwind ≠ "" ∧ downwind ≠ "None" then [(d downwind).getD downwind]
    else []
  let downwind := if downwind ≠ "" ∧ downwind ≠ "None" then downwind else ""
  if headsail = "" ∧ downwind = "" ∧ main = "DOWN" then "All sails down"
  else String.intercalate " + " (mainPart :: (headParts ++ downParts))

/-- Written from the words of C8, read strictly: the sentinel is exactly
`DOWN` and a field is unset exactly when it is the empty string. Compared
against `format_config_summary`. -/
def format_summary_strict (d : String → Option String) (c : SailConfig) :
    String :=
  if c.main = "DOWN" ∧ c.headsail = "" ∧ c.downwind = "" then "All sails down"
  else
    String.intercalate " + "
      ((if c.main = "DOWN" then "Main: DOWN" else "Main: " ++ c.main) ::
       ((if c.headsail = "" then []
         else [(d c.headsail).getD c.headsail ++
           (if c.staysail_mode then " (S)" else "")]) ++
        (if c.downwind = "" then []
         else [(d c.downwind).getD c.downwind])))

/-- Written from the words of the amended C8: main counts as down when it is
`DOWN`, empty, or the literal `None`; headsail/downwind count as set when
they are neither empty nor the literal `None`. -/
def format_summary_spec (d : String → Option String) (c : SailConfig) :
    String :=
  let mainDown := c.main = "DOWN" ∨ c.main = "" ∨ c.main = "None"
  let hSet := c.headsail ≠ "" ∧ c.headsail ≠ "None"
  let wSet := c.downwind ≠ "" ∧ c.downwind ≠ "None"
  if mainDown ∧ ¬hSet ∧ ¬wSet then "All sails down"
  else
    String.intercalate " + "
      ((if mainDown then "Main: DOWN" else "Main: " ++ c.main) ::
       ((if hSet then [(d c.headsail).getD c.headsail ++
           (if c.staysail_mode then " (S)" else "")] else []) ++
        (if wSet then [(d c.downwind).getD c.downwind] else [])))

/-- Normal form of the main branch of `toggle_sail`. -/
theorem toggle_sail_main_eq (p : SailConfig) (v : String) :
    toggle_sail p "main" v =
      { main := if v = p.main then "DOWN" else v, headsail := p.headsail,
        downwind := p.downwind, staysail_mode := p.staysail_mode } := by
  by_cases h : v = p.main <;> simp [toggle_sail, h]

/-- Normal form of the headsail branch of `toggle_sail`. -/
theorem toggle_sail_headsail_eq (p : SailConfig) (v : String) :
    toggle_sail p "headsail" v =
      if v = p.headsail ∨ v = "" then
        { main := p.main, headsail := "", downwind := p.downwind,
          staysail_mode := false }
      else if v = "JIB" ∧ p.downwind = "REACHING_SPI" then
        { main := p.main, headsail := v, downwind := p.downwind,
          staysail_mode := p.staysail_mode }
      else
        { main := p.main, headsail := v, downwind := "",
          staysail_mode := false } := by
  by_cases hv : v = p.headsail
  · subst hv
    simp [toggle_sail]
  · by_cases hv0 : v = ""
    · subst hv0
      simp [toggle_sail, hv]
    · by_cases hj : v = "JIB" ∧ p.downwind = "REACHING_SPI"
      · obtain ⟨hj1, hj2⟩ := hj
        subst hj1
        simp [toggle_sail, hv, hj2]
      · simp [toggle_sail, hv, hv0, hj]

/-- Normal form of the downwind branch of `toggle_sail`. -/
theorem toggle_sail_downwind_eq (p : SailConfig) (v : String) :
    toggle_sail p "downwind" v =
      if v = p.downwind ∨ v = "" then
        { main := p.main, headsail := p.headsail, downwind := "",
          staysail_mode := false }
      else if v = "REACHING_SPI" ∧ p.headsail = "JIB" then
        { main := p.main, headsail := p.headsail, downwind := v,
          staysail_mode := p.staysail_mode }
      else
        { main := p.main, headsail := "", downwind := v,
          staysail_mode := false } := by
  by_cases hv : v = p.downwind
  · subst hv
    simp [toggle_sail]
  · by_cases hv0 : v = ""
    · subst hv0
      simp [toggle_sail, hv]
    · by_cases hj : v = "REACHING_SPI" ∧ p.headsail = "JIB"
      · obtain ⟨hj1, hj2⟩ := hj
        subst hj1
        simp [toggle_sail, hv, hj2]
      · simp [toggle_sail, hv, hv0, hj]

/-- Normal form of `toggle_sail` on an unrecognized category. -/
theorem toggle_sail_other_eq (p : SailConfig) (category v : String)
    (h1 : category ≠ "main") (h2 : category ≠ "headsail")
    (h3 : category ≠ "downwind") :
    toggle_sail p category v = p := by
  simp [toggle_sail, h1, h2, h3]

/-- C6: toggling `main` either deselects to the sentinel or selects the
value, leaving the other three fields untouched. -/
theorem main_toggle_spec (p : SailConfig) (v : String) :
    toggle_sail p "main" v =
      { main := if v = p.main then "DOWN" else v,
        headsail := p.headsail, downwind := p.downwind,
        staysail_mode := p.staysail_mode } := by
  by_cases h : v = p.main <;> simp [toggle_sail, h]

/-- C9: a category outside main/headsail/downwind is a no-op; the toggle is
a total function, so no input raises. -/
theorem unknown_category_noop (p : SailConfig) (category v : String)
    (h1 : category ≠ "main") (h2 : category ≠ "headsail")
    (h3 : category ≠ "downwind") :
    toggle_sail p category v = p := by
  simp [toggle_sail, h1, h2, h3]

theorem unknown_category_noop_witness :
    toggle_sail ⟨"FULL", "JIB", "", true⟩ "comment" "x" =
      ⟨"FULL", "JIB", "", true⟩ :=
  unknown_category_noop ⟨"FULL", "JIB", "", true⟩ "comment" "x"
    (by decide) (by decide) (by decide)

/-- C1: full functional description of the headsail branch of
`toggle_sail`. -/
theorem headsail_toggle_spec (p : SailConfig) (v : String) :
    (toggle_sail p "headsail" v).main = p.main ∧
    (toggle_sail p "headsail" v).headsail =
      (if v = p.headsail then "" else v) ∧
    (if (toggle_sail p "headsail" v).headsail = "" then
      (toggle_sail p "headsail" v).downwind = p.downwind ∧
      (toggle_sail p "headsail" v).staysail_mode = false
     else if (toggle_sail p "headsail" v).headsail = "JIB" ∧
         p.downwind = "REACHING_SPI" then
      (toggle_sail p "headsail" v).downwind = p.downwind ∧
      (toggle_sail p "headsail" v).staysail_mode = p.staysail_mode
     else
      (toggle_sail p "headsail" v).downwind = "" ∧
      (toggle_sail p "headsail" v).staysail_mode = false) := by
  by_cases hv : v = p.headsail
  · simp [toggle_sail, hv]
  · by_cases hv0 : v = ""
    · subst hv0; simp [toggle_sail, hv]
    · by_cases hj : v = "JIB" ∧ p.downwind = "REACHING_SPI"
      · obtain ⟨hj1, hj2⟩ := hj
        subst hj1
        simp [toggle_sail, hv, hj2]
      · simp [toggle_sail, hv, hv0, hj]

/-- C2: full functional description of the downwind branch of
`toggle_sail`, symmetric to the headsail branch with roles swapped. -/
theorem downwind_toggle_spec (p : SailConfig) (v : String) :
    (toggle_sail p "downwind" v).main = p.main ∧
    (toggle_sail p "downwind" v).downwind =
      (if v = p.downwind then "" else v) ∧
    (if (toggle_sail p "downwind" v).downwind = "" then
      (toggle_sail p "downwind" v).headsail = p.headsail ∧
      (toggle_sail p "downwind" v).staysail_mode = false
     else if (toggle_sail p "downwind" v).downwind = "REACHING_SPI" ∧
         p.headsail = "JIB" then
      (toggle_sail p "downwind" v).headsail = p.headsail ∧
      (toggle_sail p "downwind" v).staysail_mode = p.staysail_mode
     else
      (toggle_sail p "downwind" v).headsail = "" ∧
      (toggle_sail p "downwind" v).staysail_mode = false) := by
  by_cases hv : v = p.downwind
  · simp [toggle_sail, hv]
  · by_cases hv0 : v = ""
    · subst hv0; simp [toggle_sail, hv]
    · by_cases hj : v = "REACHING_SPI" ∧ p.headsail = "JIB"
      · obtain ⟨hj1, hj2⟩ := hj
        subst hj1
        simp [toggle_sail, hv, hj2]
      · simp [toggle_sail, hv, hv0, hj]

/-- C7: the change detection is true iff one of the four compared fields
differs; it is false on identical records and ignores comment and
timestamp. -/
theorem has_changes_spec (a b : SailRecord) :
    (has_changes a b = true ↔
      (a.main ≠ b.main ∨ a.headsail ≠ b.headsail ∨
       a.downwind ≠ b.downwind ∨ a.staysail_mode ≠ b.staysail_mode)) ∧
    has_changes a a = false ∧
    (a.config = b.config → has_changes a b = false) := by
  refine ⟨by simp [has_changes], by simp [has_changes], fun h => ?_⟩
  have h1 := congrArg SailConfig.main h
  have h2 := congrArg SailConfig.headsail h
  have h3 := congrArg SailConfig.downwind h
  have h4 := congrArg SailConfig.staysail_mode h
  simp [SailRecord.config] at h1 h2 h3 h4
  simp [has_changes, h1, h2, h3, h4]

theorem has_changes_spec_witness :
    has_changes ⟨"DOWN", "", "", false, "first note", none⟩
      ⟨"DOWN", "", "", false, "second note", some 5⟩ = false :=
  (has_changes_spec ⟨"DOWN", "", "", false, "first note", none⟩
    ⟨"DOWN", "", "", false, "second note", some 5⟩).2.2 (by decide)

/-- The staysail invariant: `staysail_mode` is true only when the allowed
co-occurrence (headsail JIB, downwind REACHING_SPI) holds. -/
def StaysailInv (c : SailConfig) : Prop :=
  c.staysail_mode = true → c.headsail = "JIB" ∧ c.downwind = "REACHING_SPI"

/-- C3 fails as stated: `toggle_staysail` flips `staysail_mode` without
re-validation, so from the default configuration it produces a result with
`staysail_mode = true` although the headsail is not JIB. -/
theorem staysail_inv_counterexample :
    (toggle_staysail ⟨"DOWN", "", "", false⟩).staysail_mode = true ∧
    (toggle_staysail ⟨"DOWN", "", "", false⟩).headsail ≠ "JIB" := by
  decide

/-- The headsail branch establishes the staysail invariant for every
input. -/
theorem staysail_inv_headsail (p : SailConfig) (v : String) :
    StaysailInv (toggle_sail p "headsail" v) := by
  rw [toggle_sail_headsail_eq]
  split
  · simp [StaysailInv]
  · split
    · rename_i hjib
      intro _
      exact hjib
    · simp [StaysailInv]

/-- The downwind branch establishes the staysail invariant for every
input. -/
theorem staysail_inv_downwind (p : SailConfig) (v : String) :
    StaysailInv (toggle_sail p "downwind" v) := by
  rw [toggle_sail_downwind_eq]
  split
  · simp [StaysailInv]
  · split
    · rename_i hjib
      intro _
      exact ⟨hjib.2, hjib.1⟩
    · simp [StaysailInv]

/-- C3 amended: `toggle_sail` preserves the staysail invariant for every
category, and establishes it outright for the headsail and downwind
categories; `toggle_staysail` guarantees it only when the allowed
co-occurrence already holds in the input. -/
theorem staysail_inv_after_toggle (p : SailConfig) (category v : String) :
    (StaysailInv p → StaysailInv (toggle_sail p category v)) ∧
    (category = "headsail" ∨ category = "downwind" →
      StaysailInv (toggle_sail p category v)) ∧
    (p.headsail = "JIB" ∧ p.downwind = "REACHING_SPI" →
      StaysailInv (toggle_staysail p)) := by
  refine ⟨?_, ?_, fun hpair _ => hpair⟩
  · intro hp
    by_cases h1 : category = "main"
    · subst h1
      rw [toggle_sail_main_eq]
      intro hst
      exact hp hst
    · by_cases h2 : category = "headsail"
      · subst h2
        exact staysail_inv_headsail p v
      · by_cases h3 : category = "downwind"
        · subst h3
          exact staysail_inv_downwind p v
        · rw [toggle_sail_other_eq p category v h1 h2 h3]
          exact hp
  · rintro (rfl | rfl)
    · exact staysail_inv_headsail p v
    · exact staysail_inv_downwind p v

theorem staysail_inv_after_toggle_witness :
    StaysailInv (toggle_sail ⟨"FULL", "GENOA", "", false⟩ "main" "REEF1") ∧
    StaysailInv (toggle_sail ⟨"DOWN", "", "BIG_SPI", false⟩ "headsail" "JIB") ∧
    StaysailInv (toggle_staysail ⟨"DOWN", "JIB", "REACHING_SPI", false⟩) :=
  ⟨(staysail_inv_after_toggle ⟨"FULL", "GENOA", "", false⟩ "main" "REEF1").1
      (by intro h; simp at h),
   (staysail_inv_after_toggle ⟨"DOWN", "", "BIG_SPI", false⟩ "headsail"
      "JIB").2.1 (Or.inl rfl),
   (staysail_inv_after_toggle ⟨"DOWN", "JIB", "REACHING_SPI", false⟩ "main"
      "x").2.2 (by exact ⟨rfl, rfl⟩)⟩

/-- C4: any headsail or downwind toggle that does not land on the allowed
pair (JIB, REACHING_SPI) leaves at most one of headsail/downwind
non-empty. -/
theorem exclusion_after_toggle (p : SailConfig) (category v : String)
    (hc : category = "headsail" ∨ category = "downwind")
    (hpair : ¬((toggle_sail p category v).headsail = "JIB" ∧
      (toggle_sail p category v).downwind = "REACHING_SPI")) :
    ¬((toggle_sail p category v).headsail ≠ "" ∧
      (toggle_sail p category v).downwind ≠ "") := by
  rcases hc with rfl | rfl
  · rw [toggle_sail_headsail_eq] at hpair ⊢
    revert hpair
    split
    · simp
    · split
      · rename_i hjib
        exact fun hpair _ => hpair hjib
      · simp
  · rw [toggle_sail_downwind_eq] at hpair ⊢
    revert hpair
    split
    · simp
    · split
      · rename_i hjib
        exact fun hpair _ => hpair ⟨hjib.2, hjib.1⟩
      · simp

theorem exclusion_after_toggle_witness :
    ¬((toggle_sail ⟨"DOWN", "", "BIG_SPI", false⟩ "headsail" "GENOA").headsail
        ≠ "" ∧
      (toggle_sail ⟨"DOWN", "", "BIG_SPI", false⟩ "headsail" "GENOA").downwind
        ≠ "") :=
  exclusion_after_toggle ⟨"DOWN", "", "BIG_SPI", false⟩ "headsail" "GENOA"
    (Or.inl rfl) (by decide)

/-- C5 fails as stated: toggling `main` twice with a value different from
the current main ends at the sentinel, not at the original state. -/
theorem double_toggle_counterexample :
    toggle_sail (toggle_sail ⟨"FULL", "", "", false⟩ "main" "REEF1")
      "main" "REEF1" ≠ ⟨"FULL", "", "", false⟩ := by
  decide

/-- C5 amended: the double toggle is the identity for `main` when the value
matches the current main or the main is the sentinel, and for
headsail/downwind when staysail mode is off, the targeted field equals the
value or is empty, and the toggle stays in a non-exclusive branch. -/
theorem double_toggle_spec (c : SailConfig) (v : String) :
    ((v = c.main ∨ c.main = "DOWN") →
      toggle_sail (toggle_sail c "main" v) "main" v = c) ∧
    (c.staysail_mode = false →
      ((v = c.headsail ∨ c.headsail = "") →
       (v = "" ∨ (v = "JIB" ∧ c.downwind = "REACHING_SPI") ∨
        c.downwind = "") →
       toggle_sail (toggle_sail c "headsail" v) "headsail" v = c) ∧
      ((v = c.downwind ∨ c.downwind = "") →
       (v = "" ∨ (v = "REACHING_SPI" ∧ c.headsail = "JIB") ∨
        c.headsail = "") →
       toggle_sail (toggle_sail c "downwind" v) "downwind" v = c)) := by
  obtain ⟨m, h, w, s⟩ := c
  refine ⟨?_, ?_⟩
  · rintro (hv | hv)
    · by_cases hd : v = "DOWN" <;> simp_all [toggle_sail_main_eq]
    · by_cases hd : v = "DOWN" <;> simp_all [toggle_sail_main_eq]
  · intro hs
    simp only [] at hs
    constructor
    · intro hsel hbr
      rcases hsel with hv | hv <;> by_cases hv0 : v = ""
      · simp_all [toggle_sail_headsail_eq]
      · rcases hbr with rfl | ⟨rfl, rfl⟩ | rfl
        · exact absurd rfl hv0
        · simp_all [toggle_sail_headsail_eq]
        · simp_all [toggle_sail_headsail_eq]
      · simp_all [toggle_sail_headsail_eq]
      · rcases hbr with rfl | ⟨rfl, rfl⟩ | rfl
        · exact absurd rfl hv0
        · simp_all [toggle_sail_headsail_eq]
        · simp_all [toggle_sail_headsail_eq]
    · intro hsel hbr
      rcases hsel with hv | hv <;> by_cases hv0 : v = ""
      · simp_all [toggle_sail_downwind_eq]
      · rcases hbr with rfl | ⟨rfl, rfl⟩ | rfl
        · exact absurd rfl hv0
        · simp_all [toggle_sail_downwind_eq]
        · simp_all [toggle_sail_downwind_eq]
      · simp_all [toggle_sail_downwind_eq]
      · rcases hbr with rfl | ⟨rfl, rfl⟩ | rfl
        · exact absurd rfl hv0
        · simp_all [toggle_sail_downwind_eq]
        · simp_all [toggle_sail_downwind_eq]

theorem double_toggle_spec_witness :
    toggle_sail (toggle_sail ⟨"DOWN", "", "", false⟩ "main" "FULL")
      "main" "FULL" = ⟨"DOWN", "", "", false⟩ ∧
    toggle_sail (toggle_sail ⟨"DOWN", "", "REACHING_SPI", false⟩ "headsail"
      "JIB") "headsail" "JIB" = ⟨"DOWN", "", "REACHING_SPI", false⟩ ∧
    toggle_sail (toggle_sail ⟨"DOWN", "JIB", "", false⟩ "downwind"
      "REACHING_SPI") "downwind" "REACHING_SPI" = ⟨"DOWN", "JIB", "", false⟩ :=
  ⟨(double_toggle_spec ⟨"DOWN", "", "", false⟩ "FULL").1 (Or.inr rfl),
   ((double_toggle_spec ⟨"DOWN", "", "REACHING_SPI", false⟩ "JIB").2 rfl).1
     (Or.inr rfl) (Or.inr (Or.inl ⟨rfl, rfl⟩)),
   ((double_toggle_spec ⟨"DOWN", "JIB", "", false⟩ "REACHING_SPI").2 rfl).2
     (Or.inr rfl) (Or.inr (Or.inl ⟨rfl, rfl⟩))⟩

/-- C8 fails as stated: a configuration whose main is the literal string
`None` is summarised as "All sails down" by the code, while the strict
reading of the claim produces "Main: None". -/
theorem summary_strict_counterexample :
    format_config_summary (fun _ => none) ⟨"None", "", "", false⟩ ≠
      format_summary_strict (fun _ => none) ⟨"None", "", "", false⟩ := by
  decide

/-- C8 amended: the summary formatter agrees everywhere with the claimed
description once main values `DOWN`, empty and `None` all count as the
sentinel and headsail/downwind values empty and `None` both count as
unset. -/
theorem format_config_summary_spec (d : String → Option String)
    (c : SailConfig) :
    format_config_summary d c = format_summary_spec d c := by
  obtain ⟨m, h, w, s⟩ := c
  cases s <;> by_cases hm0 : m = "" <;> by_cases hmd : m = "DOWN" <;>
    by_cases hmn : m = "None" <;> by_cases hh0 : h = "" <;>
    by_cases hhn : h = "None" <;> by_cases hw0 : w = "" <;>
    by_cases hwn : w = "None" <;>
    simp_all [format_config_summary, format_summary_spec,
      String.append_empty]

/-- C10: the summary formatter treats the literal string `None` exactly as
absence, in the main, headsail and downwind positions. -/
theorem summary_none_as_absent (d : String → Option String) (c : SailConfig) :
    format_config_summary d { c with main := "None" } =
      format_config_summary d { c with main := "DOWN" } ∧
    format_config_summary d { c with headsail := "None" } =
      format_config_summary d { c with headsail := "" } ∧
    format_config_summary d { c with downwind := "None" } =
      format_config_summary d { c with downwind := "" } :=
  ⟨rfl, rfl, rfl⟩

end SailPlan
